import Mathlib

/-! The youtube-dl-api program: format selection and download orchestration.

A shallow embedding of `main.go` (`priorities`, `download`) and of the vendored
`downloader/downloader.go` (`getOutputFile`, `Download`,
`DownloadWithHighQuality`, `videoDLWorker`).

* Go `error` values are identified with their message; `nil` is `none`.
* The file system is the list of paths for which `os.Stat` succeeds.
* Every outside effect is appended to a log, so that "no stream was opened"
  or "the merge ran after two signals" are statements about the log.
* Outcomes of the outside world (network, `os`, `ffmpeg`) come from an `Env`.
* The two goroutines of `DownloadWithHighQuality` and its main loop are run
  step by step under an explicit schedule.
* A call may never return: `progress.Wait()` inside `videoDLWorker` can wait
  forever, and then so does whoever waits for that worker.
-/

namespace YoutubeDl

/-! ## Data model -/

/-- A Go `error`, identified with its message. `nil` is `none : Option Error`. -/
abbrev Error := String

/-- The fields of `youtube.Format` the program reads. -/
structure Format where
  ItagNo : Int
  Quality : String
  MimeType : String
  URL : String
deriving DecidableEq

/-- The type `youtube.FormatList`. -/
abbrev FormatList := List Format

/-- The fields of `youtube.Video` the program reads. -/
structure Video where
  Title : String
  Author : String
  Formats : FormatList
deriving DecidableEq

/-! ## Strings -/

/-- Whether `pre` is an initial segment of `s`. -/
def hasPrefixChars : List Char → List Char → Bool
  | _, [] => true
  | [], _ :: _ => false
  | c :: s, d :: pre => c == d && hasPrefixChars s pre

/-- Whether `sub` occurs in `s` as a contiguous block. -/
def containsChars : List Char → List Char → Bool
  | [], sub => hasPrefixChars [] sub
  | c :: s, sub => hasPrefixChars (c :: s) sub || containsChars s sub

/-- Go `strings.Contains(s, substr)`. -/
def stringsContains (s substr : String) : Bool :=
  containsChars s.data substr.data

/-! ## main.go: the priority policy and the selection loop -/

/-- The variable `priorities` of `main.go` (lines 30-39). -/
def priorities : List String :=
  ["hd1080", "hd720", "large", "medium", "small", "tiny"]

/-- Modelled from the spec: `FormatList.FindByQuality` of the vendored package
`github.com/kkdai/youtube/v2` is called by `download` but its file is not part
of the sources at hand. It scans the list for the first entry whose quality
label matches and yields it, or `nil` when there is none. -/
def FindByQuality (list : FormatList) (quality : String) : Option Format :=
  list.find? (fun f => f.Quality == quality)

/-- Modelled from the spec: `FormatList.FindByItag` of the vendored package
`github.com/kkdai/youtube/v2`, called by `DownloadWithHighQuality` to resolve
the fixed pair of format identifiers; the first entry with that format
identifier, or `nil` when there is none. -/
def FindByItag (list : FormatList) (itagNo : Int) : Option Format :=
  list.find? (fun f => f.ItagNo == itagNo)

/-- The loop of `download` over the policy (`main.go` lines 108-114): the
first policy entry whose `FindByQuality` result is non-nil and has a
`MimeType` containing "mp4" wins; `none` is the `nil` left in `format` when
the loop ends without a `break`. -/
def selectLoop (formats : FormatList) : List String → Option Format
  | [] => none
  | quality :: rest =>
    match FindByQuality formats quality with
    | some fmt => if stringsContains fmt.MimeType "mp4" then some fmt else selectLoop formats rest
    | none => selectLoop formats rest

/-- The Selecting step of `download` (`main.go` lines 108-118): the loop, then
`format = &video.Formats[0]` when nothing was chosen. The result `none` is the
run-time panic "index out of range [0] with length 0" of that indexing. -/
def selectFormat (policy : List String) (formats : FormatList) : Option Format :=
  match selectLoop formats policy with
  | some fmt => some fmt
  | none => formats[0]?

/-! ## The outside world -/

/-- The outside effects of the program, in the order they are performed. -/
inductive Event where
  | getVideo (url : String)
  | mkdirAll (dir : String)
  | stat (path : String)
  | create (path : String)
  | tempFile (dir : String) (pattern : String) (name : Option String)
  | remove (path : String)
  | getStream (itag : Int)
  | copy (itag : Int) (out : String)
  | recv (e : Option Error)
  | ffmpegVersion
  | ffmpegMerge (video : String) (audio : String) (dest : String)
deriving DecidableEq

/-- The state of the outside world: `files` holds the paths for which
`os.Stat` succeeds (directories are not tracked: `os.MkdirAll` is an event
only), `log` the effects performed so far, oldest first. -/
structure World where
  files : List String
  log : List Event
deriving DecidableEq

/-- Append one effect to the log. -/
def World.emit (w : World) (ev : Event) : World :=
  ⟨w.files, w.log ++ [ev]⟩

/-- The path exists afterwards (`os.Create`, `O_CREATE`, the output of ffmpeg). -/
def World.addFile (w : World) (path : String) : World :=
  if path ∈ w.files then w else ⟨path :: w.files, w.log⟩

/-- The path no longer exists afterwards (`os.Remove`). -/
def World.removeFile (w : World) (path : String) : World :=
  ⟨w.files.filter (fun p => p ≠ path), w.log⟩

/-- A `context.Context`, reduced to what `ctx.Err()` reports. -/
structure Context where
  err : Option Error
deriving DecidableEq

/-- The value `context.Background()`: never cancelled. -/
def Background : Context := ⟨none⟩

/-- Everything the code takes from outside the two source files: the helpers
of the vendored packages whose files are not at hand, pure functions of the Go
standard library, and the outcomes of the operating system, the network and
the external encoder. -/
structure Env where
  /-- The helper `SanitizeFilename` of the downloader package. -/
  SanitizeFilename : String → String
  /-- The helper `pickIdealFileExtension` of the downloader package. -/
  pickIdealFileExtension : String → String
  /-- The function `filepath.Join` on two elements. -/
  Join : String → String → String
  /-- The function `filepath.Dir`. -/
  Dir : String → String
  /-- The error of `os.MkdirAll(dir, 0755)`. -/
  MkdirAll : String → Option Error
  /-- The error of `os.Create(path)`. -/
  Create : String → Option Error
  /-- The name `ioutil.TempFile(dir, pattern)` tries, or its error. -/
  TempName : String → String → Except Error String
  /-- The video the server's answer describes, or the error of reading it. -/
  ServerAnswer : String → Except Error Video
  /-- The error of `os.Remove(path)`. -/
  Remove : String → Option Error
  /-- The error of `youtube.Client.GetStreamContext`. -/
  GetStreamContext : Context → Video → Format → Option Error
  /-- The error of `io.Copy` from the response body into the output file. -/
  Copy : Context → Video → Format → Option Error
  /-- Whether `progress.Wait()` returns once the copy is done; on an empty
  response body the bar never completes and it does not. -/
  ProgressWaitReturns : Context → Video → Format → Bool
  /-- The error of running `ffmpeg -version`. -/
  ffmpegVersionRun : Option Error
  /-- The error of running the merge command on video, audio, destination. -/
  ffmpegMergeRun : String → String → String → Option Error
  /-- Whether a merge command that fails leaves a file at the destination. -/
  ffmpegLeavesOutput : String → String → String → Bool

/-- The fields of `downloader.Downloader` the code reads. -/
structure Downloader where
  OutputDir : String
deriving DecidableEq

/-- How a call ends. -/
inductive Outcome where
  /-- The Go function returned `(path, err)`. -/
  | returned (path : String) (err : Option Error)
  /-- A run-time panic. -/
  | panicked (msg : String)
  /-- The call never returns: it waits forever, inside `progress.Wait()` or
  on a channel nobody will send to. -/
  | blocked
deriving DecidableEq

/-- The call `ioutil.TempFile(dir, pattern)`: the file is opened with
`O_CREATE|O_EXCL`, so the name of an existing file is never returned; on
success the new file exists and the event carries its name. -/
def TempFile (env : Env) (dir pattern : String) (w : World) : Except Error String × World :=
  match env.TempName dir pattern with
  | Except.error e => (Except.error e, w.emit (Event.tempFile dir pattern none))
  | Except.ok name =>
    if name ∈ w.files then
      (Except.error ("open " ++ name ++ ": file exists"), w.emit (Event.tempFile dir pattern none))
    else (Except.ok name, (w.emit (Event.tempFile dir pattern (some name))).addFile name)

/-- The call `os.Remove(path)` whose error the code drops: when the removal
fails the path stays. -/
def Remove (env : Env) (path : String) (w : World) : World :=
  match env.Remove path with
  | none => (w.emit (Event.remove path)).removeFile path
  | some _ => w.emit (Event.remove path)

/-! ## downloader.go -/

/-- The method `Downloader.getOutputFile` (lines 24-39). -/
def getOutputFile (env : Env) (dl : Downloader) (v : Video) (format : Format)
    (outputFile : String) (w : World) : Except Error String × World :=
  let outputFile :=
    if outputFile = "" then
      env.SanitizeFilename v.Title ++ env.pickIdealFileExtension format.MimeType
    else outputFile
  if dl.OutputDir ≠ "" then
    let w := w.emit (Event.mkdirAll dl.OutputDir)
    match env.MkdirAll dl.OutputDir with
    | some err => (Except.error err, w)
    | none => (Except.ok (env.Join dl.OutputDir outputFile), w)
  else (Except.ok outputFile, w)

/-- The method `Downloader.videoDLWorker` (lines 144-180); `out` is the path of
the open output file. The result `some r` is the returned error `r`; the result
`none` is a call that never returns, because `progress.Wait()` (line 178) does
not. -/
def videoDLWorker (env : Env) (ctx : Context) (out : String) (video : Video)
    (format : Format) (w : World) : Option (Option Error) × World :=
  let w := w.emit (Event.getStream format.ItagNo)
  match env.GetStreamContext ctx video format with
  | some err => (some (some err), w)
  | none =>
    let w := w.emit (Event.copy format.ItagNo out)
    match env.Copy ctx video format with
    | some err => (some (some err), w)
    | none => if env.ProgressWaitReturns ctx video format then (some none, w) else (none, w)

/-- The method `Downloader.Download` (lines 42-60). -/
def Download (env : Env) (dl : Downloader) (ctx : Context) (v : Video) (format : Format)
    (outputFile : String) (w : World) : Outcome × World :=
  match getOutputFile env dl v format outputFile w with
  | (Except.error err, w) => (Outcome.returned "" (some err), w)
  | (Except.ok destFile, w) =>
    let w := w.emit (Event.stat destFile)
    if destFile ∈ w.files then (Outcome.returned destFile none, w)
    else
      let w := w.emit (Event.create destFile)
      match env.Create destFile with
      | some err => (Outcome.returned "" (some err), w)
      | none =>
        let w := w.addFile destFile
        match videoDLWorker env ctx destFile v format w with
        | (some r, w) => (Outcome.returned destFile r, w)
        | (none, w) => (Outcome.blocked, w)

/-! ### DownloadWithHighQuality: the concurrent part

After both temporary files exist, three threads run: the goroutine of the
video track, the goroutine of the audio track, and the calling goroutine in
its loop over `<-finished`. Both goroutines assign the captured variable `err`
of the enclosing function and then send its value. -/

/-- The three threads of the concurrent part. -/
inductive Tid where
  | main
  | video
  | audio
deriving DecidableEq

/-- Where a track goroutine stands. -/
inductive PC where
  /-- Before `err = dl.videoDLWorker(...)`. -/
  | start
  /-- After the assignment to `err`, before `finished <- err`. -/
  | assigned
  /-- After `finished <- err`. -/
  | sent
  /-- Inside a `videoDLWorker` call that never returns. -/
  | hung
deriving DecidableEq

/-- The values the concurrent part of `DownloadWithHighQuality` works on. -/
structure Job where
  ctx : Context
  v : Video
  videoFormat : Format
  audioFormat : Format
  destFile : String
  videoFile : String
  audioFile : String

/-- The state of the concurrent part. -/
structure HQState where
  world : World
  /-- The variable `err` of the enclosing function, shared by both closures. -/
  err : Option Error
  /-- The contents of the channel `finished` (capacity 2), oldest first. -/
  finished : List (Option Error)
  pcVideo : PC
  pcAudio : PC
  /-- The counter `i` of the loop of the calling goroutine. -/
  i : Nat
  /-- What the call returned, once it has. -/
  ret : Option (String × Option Error)

/-- The deferred calls, last registered first: `os.Remove(audioFile.Name())`,
then `os.Remove(videoFile.Name())`. -/
def runDefers (env : Env) (j : Job) (w : World) : World :=
  Remove env j.videoFile (Remove env j.audioFile w)

/-- One step of the video goroutine (lines 108-112). -/
def stepVideo (env : Env) (j : Job) (s : HQState) : HQState :=
  match s.pcVideo with
  | PC.start =>
    match videoDLWorker env j.ctx j.videoFile j.v j.videoFormat s.world with
    | (some r, w) => ⟨w, r, s.finished, PC.assigned, s.pcAudio, s.i, s.ret⟩
    | (none, w) => ⟨w, s.err, s.finished, PC.hung, s.pcAudio, s.i, s.ret⟩
  | PC.assigned => ⟨s.world, s.err, s.finished ++ [s.err], PC.sent, s.pcAudio, s.i, s.ret⟩
  | PC.sent => s
  | PC.hung => s

/-- One step of the audio goroutine (lines 114-118). -/
def stepAudio (env : Env) (j : Job) (s : HQState) : HQState :=
  match s.pcAudio with
  | PC.start =>
    match videoDLWorker env j.ctx j.audioFile j.v j.audioFormat s.world with
    | (some r, w) => ⟨w, r, s.finished, s.pcVideo, PC.assigned, s.i, s.ret⟩
    | (none, w) => ⟨w, s.err, s.finished, s.pcVideo, PC.hung, s.i, s.ret⟩
  | PC.assigned => ⟨s.world, s.err, s.finished ++ [s.err], s.pcVideo, PC.sent, s.i, s.ret⟩
  | PC.sent => s
  | PC.hung => s

/-- The merge command of lines 128-141, then the deferred removals. -/
def runMerge (env : Env) (j : Job) (w : World) : Option Error × World :=
  let w := w.emit (Event.ffmpegMerge j.videoFile j.audioFile j.destFile)
  match env.ffmpegMergeRun j.videoFile j.audioFile j.destFile with
  | none => (none, runDefers env j (w.addFile j.destFile))
  | some err =>
    if env.ffmpegLeavesOutput j.videoFile j.audioFile j.destFile then
      (some err, runDefers env j (w.addFile j.destFile))
    else (some err, runDefers env j w)

/-- One step of the calling goroutine (lines 120-141): inside the loop it
takes one value from `finished` (and waits when there is none) and returns at
once when the value is an error, running the deferred removals; after the
loop it runs the merge and returns. -/
def stepMain (env : Env) (j : Job) (s : HQState) : HQState :=
  if s.i < 2 then
    match s.finished with
    | [] => s
    | some e :: rest =>
      ⟨runDefers env j (s.world.emit (Event.recv (some e))), s.err, rest, s.pcVideo, s.pcAudio,
        s.i, some ("", some e)⟩
    | none :: rest =>
      ⟨s.world.emit (Event.recv none), s.err, rest, s.pcVideo, s.pcAudio, s.i + 1, s.ret⟩
  else
    match runMerge env j s.world with
    | (r, w) => ⟨w, s.err, s.finished, s.pcVideo, s.pcAudio, s.i, some (j.destFile, r)⟩

/-- One step of the chosen thread; once the call has returned the state is
kept as it was at the return. -/
def stepHQ (env : Env) (j : Job) (t : Tid) (s : HQState) : HQState :=
  match s.ret with
  | some _ => s
  | none =>
    match t with
    | Tid.main => stepMain env j s
    | Tid.video => stepVideo env j s
    | Tid.audio => stepAudio env j s

/-- Run the threads in the order the schedule gives; when the schedule is
used up, the video goroutine, the audio goroutine and the calling goroutine
each run as far as they can, in this order. A calling goroutine that has not
returned by then never will: it waits for a goroutine that is hung. -/
def runHQ (env : Env) (j : Job) : List Tid → HQState → HQState
  | [], s =>
    [Tid.video, Tid.video, Tid.audio, Tid.audio, Tid.main, Tid.main, Tid.main].foldl
      (fun s t => stepHQ env j t s) s
  | t :: sched, s => runHQ env j sched (stepHQ env j t s)

/-- The method `Downloader.DownloadWithHighQuality` (lines 63-142), with the
schedule of its three threads. -/
def DownloadWithHighQuality (env : Env) (dl : Downloader) (sched : List Tid) (ctx : Context)
    (outputFile : String) (v : Video) (quality : String) (w : World) : Outcome × World :=
  if quality = "hd1080" then
    match FindByItag v.Formats 137 with
    | none => (Outcome.returned "" (some ("no format video/mp4 for " ++ quality ++ " found")), w)
    | some videoFormat =>
      match FindByItag v.Formats 140 with
      | none => (Outcome.returned "" (some ("no format audio/mp4 for " ++ quality ++ " found")), w)
      | some audioFormat =>
        match getOutputFile env dl v videoFormat outputFile w with
        | (Except.error err, w) => (Outcome.returned "" (some err), w)
        | (Except.ok destFile, w) =>
          let w := w.emit (Event.stat destFile)
          if destFile ∈ w.files then (Outcome.returned destFile none, w)
          else
            let outputDir := env.Dir destFile
            match TempFile env outputDir "youtube_*.m4v" w with
            | (Except.error err, w) => (Outcome.returned "" (some err), w)
            | (Except.ok videoFile, w) =>
              match TempFile env outputDir "youtube_*.m4a" w with
              | (Except.error err, w) => (Outcome.returned "" (some err), Remove env videoFile w)
              | (Except.ok audioFile, w) =>
                let j : Job := ⟨ctx, v, videoFormat, audioFormat, destFile, videoFile, audioFile⟩
                let s := runHQ env j sched ⟨w, none, [], PC.start, PC.start, 0, none⟩
                match s.ret with
                | some (path, err) => (Outcome.returned path err, s.world)
                | none => (Outcome.blocked, s.world)
  else (Outcome.returned "" (some ("unknown quality: " ++ quality)), w)

/-! ## main.go: download -/

/-- Modelled from the spec: `youtube.Client.GetVideo`, the stream resolver
that turns a reference into a video and its list of formats; its file is not
part of the sources at hand. A reference that cannot be resolved to a format
list is a resolution error: the resolver reports an answer without any format
as "no formats found in the server's answer". -/
def GetVideo (env : Env) (url : String) : Except Error Video :=
  match env.ServerAnswer url with
  | Except.error err => Except.error err
  | Except.ok video =>
    if video.Formats = [] then Except.error "no formats found in the server's answer"
    else Except.ok video

/-- The function `download` of `main.go` (lines 81-131). The package variables
`outputDir` and `outputFile` are arguments; the listing printed under `-info`
goes to standard output only and is left out. -/
def download (env : Env) (outputDir outputFile : String) (sched : List Tid) (url : String)
    (w : World) : Outcome × World :=
  let dl : Downloader := ⟨outputDir⟩
  let w := w.emit (Event.getVideo url)
  match GetVideo env url with
  | Except.error err => (Outcome.returned "" (some err), w)
  | Except.ok video =>
    match selectFormat priorities video.Formats with
    | none => (Outcome.panicked "index out of range [0] with length 0", w)
    | some format =>
      if format.Quality = "hd1080" then
        let w := w.emit Event.ffmpegVersion
        match env.ffmpegVersionRun with
        | some err =>
          (Outcome.returned "" (some ("please check ffmpeg is installed correctly, err: " ++ err)), w)
        | none => DownloadWithHighQuality env dl sched Background outputFile video format.Quality w
      else Download env dl Background video format outputFile w

/-! ## Reading the log -/

/-- The values the calling goroutine received from `finished`, in order. -/
def recvs : List Event → List (Option Error)
  | [] => []
  | Event.recv e :: l => e :: recvs l
  | _ :: l => recvs l

/-- The names of the temporary files that were created, in order. -/
def tempsCreated : List Event → List String
  | [] => []
  | Event.tempFile _ _ (some name) :: l => name :: tempsCreated l
  | _ :: l => tempsCreated l

/-- An effect that only looks at the world or makes sure a directory exists:
`GetVideo` apart, what is left once streams, file creation, file removal and
the encoder are excluded. -/
def Event.isCheck : Event → Bool
  | Event.mkdirAll _ => true
  | Event.stat _ => true
  | _ => false

/-! ## Concrete worlds for the examples -/

/-- An environment in which the local machine works (directories and files can
be created and removed, ffmpeg is installed and merges), every destination
lies in the directory `out`, and the network behaves as given: `video` and
`audio` are the errors of opening the streams of format 137 and format 140; a
cancelled context fails every stream with its own error; every body that is
copied is non-empty, so that `progress.Wait()` returns. -/
def demoEnv (formats : FormatList) (video audio : Option Error) : Env where
  SanitizeFilename := fun title => title
  pickIdealFileExtension := fun _ => ".mp4"
  Join := fun dir file => dir ++ "/" ++ file
  Dir := fun _ => "out"
  MkdirAll := fun _ => none
  Create := fun _ => none
  TempName := fun dir pattern =>
    Except.ok (dir ++ "/" ++ (if pattern = "youtube_*.m4v" then "youtube_1.m4v" else "youtube_2.m4a"))
  ServerAnswer := fun _ => Except.ok ⟨"clip", "author", formats⟩
  Remove := fun _ => none
  GetStreamContext := fun ctx _ format =>
    match ctx.err with
    | some e => some e
    | none => if format.ItagNo = 137 then video else if format.ItagNo = 140 then audio else none
  Copy := fun _ _ _ => none
  ProgressWaitReturns := fun _ _ _ => true
  ffmpegVersionRun := none
  ffmpegMergeRun := fun _ _ _ => none
  ffmpegLeavesOutput := fun _ _ _ => false

/-- The environment `demoEnv` on a system that refuses to remove a file that
is still open (the temporary files are never closed): every `os.Remove`
fails. -/
def openFilesEnv (formats : FormatList) : Env where
  SanitizeFilename := (demoEnv formats none none).SanitizeFilename
  pickIdealFileExtension := (demoEnv formats none none).pickIdealFileExtension
  Join := (demoEnv formats none none).Join
  Dir := (demoEnv formats none none).Dir
  MkdirAll := (demoEnv formats none none).MkdirAll
  Create := (demoEnv formats none none).Create
  TempName := (demoEnv formats none none).TempName
  ServerAnswer := (demoEnv formats none none).ServerAnswer
  Remove := fun path =>
    some ("remove " ++ path ++ ": The process cannot access the file because it is being used by another process.")
  GetStreamContext := (demoEnv formats none none).GetStreamContext
  Copy := (demoEnv formats none none).Copy
  ProgressWaitReturns := (demoEnv formats none none).ProgressWaitReturns
  ffmpegVersionRun := (demoEnv formats none none).ffmpegVersionRun
  ffmpegMergeRun := (demoEnv formats none none).ffmpegMergeRun
  ffmpegLeavesOutput := (demoEnv formats none none).ffmpegLeavesOutput

/-- The environment `demoEnv` when the server answers the request for the
stream of format 137 with an empty body: the copy ends without error and
`progress.Wait()` never returns. -/
def emptyBodyEnv (formats : FormatList) : Env where
  SanitizeFilename := (demoEnv formats none none).SanitizeFilename
  pickIdealFileExtension := (demoEnv formats none none).pickIdealFileExtension
  Join := (demoEnv formats none none).Join
  Dir := (demoEnv formats none none).Dir
  MkdirAll := (demoEnv formats none none).MkdirAll
  Create := (demoEnv formats none none).Create
  TempName := (demoEnv formats none none).TempName
  ServerAnswer := (demoEnv formats none none).ServerAnswer
  Remove := (demoEnv formats none none).Remove
  GetStreamContext := (demoEnv formats none none).GetStreamContext
  Copy := (demoEnv formats none none).Copy
  ProgressWaitReturns := fun _ _ format => decide (format.ItagNo ≠ 137)
  ffmpegVersionRun := (demoEnv formats none none).ffmpegVersionRun
  ffmpegMergeRun := (demoEnv formats none none).ffmpegMergeRun
  ffmpegLeavesOutput := (demoEnv formats none none).ffmpegLeavesOutput

/-- A format: 1080p video in a WebM container. -/
def f248 : Format := ⟨248, "hd1080", "video/webm; codecs=\"vp9\"", "https://v/248"⟩

/-- A format: 1080p video-only track in an MP4 container. -/
def f137 : Format := ⟨137, "hd1080", "video/mp4; codecs=\"avc1.640028\"", "https://v/137"⟩

/-- A format: 1080p video-only track in an MP4 container, under another identifier. -/
def f299 : Format := ⟨299, "hd1080", "video/mp4; codecs=\"avc1.64002a\"", "https://v/299"⟩

/-- A format: audio-only track in an MP4 container. -/
def f140 : Format := ⟨140, "tiny", "audio/mp4; codecs=\"mp4a.40.2\"", "https://v/140"⟩

/-- A format: 360p video with audio in an MP4 container. -/
def f18 : Format := ⟨18, "medium", "video/mp4; codecs=\"avc1.42001E, mp4a.40.2\"", "https://v/18"⟩

/-- A format with a quality label outside the policy. -/
def f313 : Format := ⟨313, "hd2160", "video/webm; codecs=\"vp9\"", "https://v/313"⟩

/-- The video of the examples. -/
def clip (formats : FormatList) : Video := ⟨"clip", "author", formats⟩

/-! ## The selection rule in the words of the specification -/

/-- The specification's test for one policy entry: some format of the list has
this quality label and a container descriptor containing "mp4". -/
def specHasMp4 (formats : FormatList) (quality : String) : Bool :=
  formats.any (fun f => f.Quality == quality && stringsContains f.MimeType "mp4")

/-- The specification's choice of quality: the first policy entry for which a
format with a matching container exists. -/
def specFirstPolicyEntry (policy : List String) (formats : FormatList) : Option String :=
  policy.find? (specHasMp4 formats)

/-- The test the code applies to one policy entry: the first format of the
list with this quality label exists and its `MimeType` contains "mp4". -/
def firstOfQualityIsMp4 (formats : FormatList) (quality : String) : Bool :=
  match FindByQuality formats quality with
  | some fmt => stringsContains fmt.MimeType "mp4"
  | none => false

/-! ## Lemmas on the selection -/

theorem FindByQuality_quality {formats : FormatList} {quality : String} {f : Format}
    (h : FindByQuality formats quality = some f) : f.Quality = quality := by
  have h1 := List.find?_some h
  simpa using h1

theorem FindByQuality_mem {formats : FormatList} {quality : String} {f : Format}
    (h : FindByQuality formats quality = some f) : f ∈ formats :=
  List.mem_of_find?_eq_some h

theorem FindByQuality_eq_none {formats : FormatList} {quality : String}
    (h : ∀ f ∈ formats, f.Quality ≠ quality) : FindByQuality formats quality = none := by
  unfold FindByQuality
  rw [List.find?_eq_none]
  intro f hf
  simpa using h f hf

theorem selectLoop_eq (formats : FormatList) (policy : List String) :
    selectLoop formats policy =
      (policy.find? (firstOfQualityIsMp4 formats)).bind (FindByQuality formats) := by
  induction policy with
  | nil => rfl
  | cons q rest ih =>
    unfold selectLoop
    rw [List.find?_cons]
    cases hq : FindByQuality formats q with
    | none => simpa [firstOfQualityIsMp4, hq] using ih
    | some fmt =>
      cases hm : stringsContains fmt.MimeType "mp4" with
      | true => simp [firstOfQualityIsMp4, hq, hm]
      | false => simpa [firstOfQualityIsMp4, hq, hm] using ih

theorem selectLoop_mem {formats : FormatList} {policy : List String} {f : Format}
    (h : selectLoop formats policy = some f) : f ∈ formats := by
  rw [selectLoop_eq] at h
  cases hq : policy.find? (firstOfQualityIsMp4 formats) with
  | none => simp [hq] at h
  | some q =>
    rw [hq] at h
    exact FindByQuality_mem h

theorem selectLoop_eq_none {formats : FormatList} {policy : List String}
    (h : ∀ f ∈ formats, f.Quality ∉ policy) : selectLoop formats policy = none := by
  induction policy with
  | nil => rfl
  | cons q rest ih =>
    have hq : FindByQuality formats q = none :=
      FindByQuality_eq_none (fun f hf hfq => h f hf (by simp [hfq]))
    unfold selectLoop
    rw [hq]
    exact ih (fun f hf hmem => h f hf (List.mem_cons_of_mem _ hmem))

/-! ## Claims on the selection -/

/-- C1, the code at the failing input: in the list `[f248, f137, f18]` the
first policy entry having an mp4 format is "hd1080" (format 137), but the
first format labelled "hd1080" is the WebM one, `FindByQuality` yields only
that one, the mp4 test fails and the loop passes on: the selected format is
the "medium" one. In the list `[f248, f137, f140]` the selected format is the
audio-only track 140, and `download` fetches it alone and reports success,
although the 1080p mp4 pair 137 and 140 is in the list. -/
theorem C1_first_entry_with_mp4_not_selected :
    specFirstPolicyEntry priorities [f248, f137, f18] = some "hd1080" ∧
      selectFormat priorities [f248, f137, f18] = some f18 ∧
      f18.Quality ≠ "hd1080" ∧
      specFirstPolicyEntry priorities [f248, f137, f140] = some "hd1080" ∧
      selectFormat priorities [f248, f137, f140] = some f140 ∧
      f140.Quality ≠ "hd1080" ∧
      download (demoEnv [f248, f137, f140] none none) "out" "" [] "https://v" ⟨[], []⟩
        = (Outcome.returned "out/clip.mp4" none,
            ⟨["out/clip.mp4"],
              [Event.getVideo "https://v", Event.mkdirAll "out", Event.stat "out/clip.mp4",
                Event.create "out/clip.mp4", Event.getStream 140,
                Event.copy 140 "out/clip.mp4"]⟩) := by
  decide

/-- C2: for a non-empty format list in which no format has a quality label of
the policy, the selection yields the first element of the list, unchanged. -/
theorem C2_fallback_first_element (policy : List String) (f : Format) (rest : FormatList)
    (h : ∀ g ∈ f :: rest, g.Quality ∉ policy) :
    selectFormat policy (f :: rest) = some f := by
  unfold selectFormat
  rw [selectLoop_eq_none h]
  simp

/-- Witness of C2: two formats labelled "hd2160" and "hd1440" under the policy
of `main.go`. -/
theorem C2_fallback_first_element_witness :
    (∀ g ∈ f313 :: [⟨271, "hd1440", "video/webm", "https://v/271"⟩], g.Quality ∉ priorities) ∧
      selectFormat priorities (f313 :: [⟨271, "hd1440", "video/webm", "https://v/271"⟩])
        = some f313 :=
  ⟨by decide, C2_fallback_first_element priorities f313 _ (by decide)⟩

theorem selectFormat_total_on_nonempty (policy : List String) (formats : FormatList)
    (h : formats ≠ []) : ∃ f, selectFormat policy formats = some f ∧ f ∈ formats := by
  unfold selectFormat
  cases hl : selectLoop formats policy with
  | some f => exact ⟨f, rfl, selectLoop_mem hl⟩
  | none =>
    cases formats with
    | nil => exact absurd rfl h
    | cons f rest => exact ⟨f, by simp, List.mem_cons_self _ _⟩

theorem GetVideo_formats_ne_nil {env : Env} {url : String} {video : Video}
    (h : GetVideo env url = Except.ok video) : video.Formats ≠ [] := by
  unfold GetVideo at h
  cases ha : env.ServerAnswer url with
  | error err => simp [ha] at h
  | ok answer =>
    by_cases he : answer.Formats = []
    · simp [ha, he] at h
    · simp only [ha, he, if_false] at h
      have : answer = video := by injection h
      exact this ▸ he

/-! ## Lemmas on the resolved path -/

theorem getOutputFile_files (env : Env) (dl : Downloader) (v : Video) (format : Format)
    (outputFile : String) (w : World) :
    (getOutputFile env dl v format outputFile w).2.files = w.files := by
  unfold getOutputFile
  by_cases hd : dl.OutputDir = ""
  · simp [hd]
  · cases hm : env.MkdirAll dl.OutputDir <;> simp [hd, hm, World.emit]

theorem getOutputFile_log (env : Env) (dl : Downloader) (v : Video) (format : Format)
    (outputFile : String) (w : World) :
    ∃ added, (getOutputFile env dl v format outputFile w).2.log = w.log ++ added ∧
      ∀ ev ∈ added, ev.isCheck = true := by
  unfold getOutputFile
  by_cases hd : dl.OutputDir = ""
  · exact ⟨[], by simp [hd]⟩
  · refine ⟨[Event.mkdirAll dl.OutputDir], ?_, by simp [Event.isCheck]⟩
    cases hm : env.MkdirAll dl.OutputDir <;> simp [hd, hm, World.emit]

/-- Once the resolved path exists, a call adds a `Stat` to what resolving the
path did and stops. -/
theorem shortCircuit_world (w w1 : World) (destFile : String)
    (hfiles : w1.files = w.files)
    (hlog : ∃ added, w1.log = w.log ++ added ∧ ∀ ev ∈ added, ev.isCheck = true) :
    (w1.emit (Event.stat destFile)).files = w.files ∧
      ∃ added, (w1.emit (Event.stat destFile)).log = w.log ++ added ∧
        ∀ ev ∈ added, ev.isCheck = true := by
  obtain ⟨added, h1, h2⟩ := hlog
  refine ⟨hfiles, added ++ [Event.stat destFile], ?_, ?_⟩
  · simp [World.emit, h1]
  · intro ev hev
    rcases List.mem_append.1 hev with h | h
    · exact h2 ev h
    · have : ev = Event.stat destFile := by simpa using h
      subst this
      rfl

/-! ## Claims on the two download methods -/

/-- C4: when the path resolved by `getOutputFile` exists at the time of the
check, `Download` and `DownloadWithHighQuality` return that path with a nil
error; the files are as before and the only effects are `MkdirAll` and `Stat`:
no stream is opened, no file or temporary file is created and no merge runs. -/
theorem C4_existing_destination_short_circuits :
    (∀ (env : Env) (dl : Downloader) (ctx : Context) (v : Video) (format : Format)
        (outputFile : String) (w w1 : World) (destFile : String),
        getOutputFile env dl v format outputFile w = (Except.ok destFile, w1) →
        destFile ∈ w.files →
        ∃ w2, Download env dl ctx v format outputFile w = (Outcome.returned destFile none, w2) ∧
          w2.files = w.files ∧
          ∃ added, w2.log = w.log ++ added ∧ ∀ ev ∈ added, ev.isCheck = true) ∧
    (∀ (env : Env) (dl : Downloader) (sched : List Tid) (ctx : Context) (outputFile : String)
        (v : Video) (w w1 : World) (videoFormat audioFormat : Format) (destFile : String),
        FindByItag v.Formats 137 = some videoFormat →
        FindByItag v.Formats 140 = some audioFormat →
        getOutputFile env dl v videoFormat outputFile w = (Except.ok destFile, w1) →
        destFile ∈ w.files →
        ∃ w2, DownloadWithHighQuality env dl sched ctx outputFile v "hd1080" w
            = (Outcome.returned destFile none, w2) ∧
          w2.files = w.files ∧
          ∃ added, w2.log = w.log ++ added ∧ ∀ ev ∈ added, ev.isCheck = true) := by
  constructor
  · intro env dl ctx v format outputFile w w1 destFile hg hmem
    have hfiles : w1.files = w.files := by
      have := getOutputFile_files env dl v format outputFile w
      rwa [hg] at this
    have hlog := getOutputFile_log env dl v format outputFile w
    rw [hg] at hlog
    have hmem1 : destFile ∈ (w1.emit (Event.stat destFile)).files := by
      simpa [World.emit, hfiles] using hmem
    refine ⟨w1.emit (Event.stat destFile), ?_, shortCircuit_world w w1 destFile hfiles hlog⟩
    unfold Download
    rw [hg]
    simp only [hmem1, if_true]
  · intro env dl sched ctx outputFile v w w1 videoFormat audioFormat destFile hv ha hg hmem
    have hfiles : w1.files = w.files := by
      have := getOutputFile_files env dl v videoFormat outputFile w
      rwa [hg] at this
    have hlog := getOutputFile_log env dl v videoFormat outputFile w
    rw [hg] at hlog
    have hmem1 : destFile ∈ (w1.emit (Event.stat destFile)).files := by
      simpa [World.emit, hfiles] using hmem
    refine ⟨w1.emit (Event.stat destFile), ?_, shortCircuit_world w w1 destFile hfiles hlog⟩
    unfold DownloadWithHighQuality
    simp only [hv, ha, hg, hmem1, if_true]

/-- Witness of C4: the destination `out/clip.mp4` exists beforehand; the
single-stream call is on format 18, the dual-track call on formats 137 and
140. -/
theorem C4_existing_destination_short_circuits_witness :
    (∃ w2, Download (demoEnv [f18] none none) ⟨"out"⟩ Background (clip [f18]) f18 ""
          ⟨["out/clip.mp4"], []⟩ = (Outcome.returned "out/clip.mp4" none, w2) ∧
        w2.files = ["out/clip.mp4"] ∧
        ∃ added, w2.log = [] ++ added ∧ ∀ ev ∈ added, ev.isCheck = true) ∧
    (∃ w2, DownloadWithHighQuality (demoEnv [f137, f140] none none) ⟨"out"⟩ [] Background ""
          (clip [f137, f140]) "hd1080" ⟨["out/clip.mp4"], []⟩
          = (Outcome.returned "out/clip.mp4" none, w2) ∧
        w2.files = ["out/clip.mp4"] ∧
        ∃ added, w2.log = [] ++ added ∧ ∀ ev ∈ added, ev.isCheck = true) :=
  ⟨C4_existing_destination_short_circuits.1 (demoEnv [f18] none none) ⟨"out"⟩ Background
      (clip [f18]) f18 "" ⟨["out/clip.mp4"], []⟩ ⟨["out/clip.mp4"], [Event.mkdirAll "out"]⟩
      "out/clip.mp4" rfl (by decide),
    C4_existing_destination_short_circuits.2 (demoEnv [f137, f140] none none) ⟨"out"⟩ []
      Background "" (clip [f137, f140]) ⟨["out/clip.mp4"], []⟩
      ⟨["out/clip.mp4"], [Event.mkdirAll "out"]⟩ f137 f140 "out/clip.mp4"
      (by decide) (by decide) rfl (by decide)⟩

/-- C5, the code at the failing input: the destination `out/clip.mp4` does not
exist, the context is cancelled, so the stream cannot be opened and no byte is
copied (there is no copy in the log). `Download` returns the path together with
the error, the file created before the fetch is left at the destination, and a
second call, with a live context, takes the existence short-circuit and
returns the path of that file with a nil error. -/
theorem C5_failed_fetch_leaves_destination_file :
    (Download (demoEnv [f18] none none) ⟨"out"⟩ ⟨some "context canceled"⟩ (clip [f18]) f18 ""
        ⟨[], []⟩).1 = Outcome.returned "out/clip.mp4" (some "context canceled") ∧
    (Download (demoEnv [f18] none none) ⟨"out"⟩ ⟨some "context canceled"⟩ (clip [f18]) f18 ""
        ⟨[], []⟩).2 = ⟨["out/clip.mp4"], [Event.mkdirAll "out", Event.stat "out/clip.mp4",
          Event.create "out/clip.mp4", Event.getStream 18]⟩ ∧
    (Download (demoEnv [f18] none none) ⟨"out"⟩ Background (clip [f18]) f18 ""
        (Download (demoEnv [f18] none none) ⟨"out"⟩ ⟨some "context canceled"⟩ (clip [f18]) f18 ""
          ⟨[], []⟩).2).1 = Outcome.returned "out/clip.mp4" none := by
  decide

/-- C9: for every quality label other than "hd1080",
`DownloadWithHighQuality` returns the empty path and the error
"unknown quality: " followed by the label, and the world is untouched: no
directory is made, nothing is checked or created, no stream is opened and no
command is run. -/
theorem C9_unknown_quality_rejected_first (env : Env) (dl : Downloader) (sched : List Tid)
    (ctx : Context) (outputFile : String) (v : Video) (quality : String) (w : World)
    (h : quality ≠ "hd1080") :
    DownloadWithHighQuality env dl sched ctx outputFile v quality w
      = (Outcome.returned "" (some ("unknown quality: " ++ quality)), w) := by
  unfold DownloadWithHighQuality
  rw [if_neg h]

/-- Witness of C9: the label "hd720" on a video that has both tracks. -/
theorem C9_unknown_quality_rejected_first_witness :
    "hd720" ≠ "hd1080" ∧
      DownloadWithHighQuality (demoEnv [f137, f140] none none) ⟨"out"⟩ [] Background ""
          (clip [f137, f140]) "hd720" ⟨[], []⟩
        = (Outcome.returned "" (some ("unknown quality: " ++ "hd720")), ⟨[], []⟩) :=
  ⟨by decide,
    C9_unknown_quality_rejected_first (demoEnv [f137, f140] none none) ⟨"out"⟩ [] Background ""
      (clip [f137, f140]) "hd720" ⟨[], []⟩ (by decide)⟩

/-- C6, the code at the failing input: the stream of the video track (format
137) fails with "unexpected EOF", the audio track succeeds. Under the schedule
in which both goroutines assign the shared variable `err` before either sends
it, the video goroutine sends the nil written by the audio goroutine: the
calling goroutine receives two nil values, runs the merge and returns the
destination with a nil error. -/
theorem C6_merge_runs_after_failed_video_fetch :
    (videoDLWorker (demoEnv [f137, f140, f18] (some "unexpected EOF") none) Background
        "out/youtube_1.m4v" (clip [f137, f140, f18]) f137 ⟨[], []⟩).1
      = some (some "unexpected EOF") ∧
    (DownloadWithHighQuality (demoEnv [f137, f140, f18] (some "unexpected EOF") none) ⟨"out"⟩
        [Tid.video, Tid.audio, Tid.video, Tid.audio, Tid.main, Tid.main, Tid.main] Background ""
        (clip [f137, f140, f18]) "hd1080" ⟨[], []⟩)
      = (Outcome.returned "out/clip.mp4" none,
          ⟨["out/clip.mp4"],
            [Event.mkdirAll "out", Event.stat "out/clip.mp4",
              Event.tempFile "out" "youtube_*.m4v" (some "out/youtube_1.m4v"),
              Event.tempFile "out" "youtube_*.m4a" (some "out/youtube_2.m4a"),
              Event.getStream 137, Event.getStream 140, Event.copy 140 "out/youtube_2.m4a",
              Event.recv none, Event.recv none,
              Event.ffmpegMerge "out/youtube_1.m4v" "out/youtube_2.m4a" "out/clip.mp4",
              Event.remove "out/youtube_2.m4a", Event.remove "out/youtube_1.m4v"]⟩) := by
  decide

/-- C10: `download` goes to `DownloadWithHighQuality` (after the ffmpeg check)
when the selected format is labelled "hd1080" and to `Download` otherwise;
this holds too for a format chosen by the first-element fallback (the list
`[f248]`); and on lists that hold the "medium" MP4 format 18 next to an
"hd1080" MP4 format but lack format 137, or lack format 140, `download`
returns the error of the missing track instead of downloading format 18. -/
theorem C10_no_fallback_below_selected_tier :
    (∀ (env : Env) (outputDir outputFile : String) (sched : List Tid) (url : String) (w : World)
        (video : Video) (format : Format),
        GetVideo env url = Except.ok video →
        selectFormat priorities video.Formats = some format →
        (format.Quality = "hd1080" →
          download env outputDir outputFile sched url w =
            match env.ffmpegVersionRun with
            | some err =>
              (Outcome.returned ""
                (some ("please check ffmpeg is installed correctly, err: " ++ err)),
                (w.emit (Event.getVideo url)).emit Event.ffmpegVersion)
            | none =>
              DownloadWithHighQuality env ⟨outputDir⟩ sched Background outputFile video
                format.Quality ((w.emit (Event.getVideo url)).emit Event.ffmpegVersion)) ∧
        (format.Quality ≠ "hd1080" →
          download env outputDir outputFile sched url w =
            Download env ⟨outputDir⟩ Background video format outputFile
              (w.emit (Event.getVideo url)))) ∧
    (selectLoop [f248] priorities = none ∧
      ∀ (sched : List Tid) (url : String),
        download (demoEnv [f248] none none) "out" "" sched url ⟨[], []⟩
          = (Outcome.returned "" (some "no format video/mp4 for hd1080 found"),
              ⟨[], [Event.getVideo url, Event.ffmpegVersion]⟩)) ∧
    (f18 ∈ [f299, f140, f18] ∧ f299 ∈ [f299, f140, f18] ∧
      stringsContains f18.MimeType "mp4" = true ∧ stringsContains f299.MimeType "mp4" = true ∧
      ∀ (sched : List Tid) (url : String),
        download (demoEnv [f299, f140, f18] none none) "out" "" sched url ⟨[], []⟩
          = (Outcome.returned "" (some "no format video/mp4 for hd1080 found"),
              ⟨[], [Event.getVideo url, Event.ffmpegVersion]⟩)) ∧
    (f18 ∈ [f137, f18] ∧ f137 ∈ [f137, f18] ∧
      stringsContains f18.MimeType "mp4" = true ∧ stringsContains f137.MimeType "mp4" = true ∧
      ∀ (sched : List Tid) (url : String),
        download (demoEnv [f137, f18] none none) "out" "" sched url ⟨[], []⟩
          = (Outcome.returned "" (some "no format audio/mp4 for hd1080 found"),
              ⟨[], [Event.getVideo url, Event.ffmpegVersion]⟩)) := by
  refine ⟨?_, ⟨by decide, fun _ _ => rfl⟩,
    ⟨by decide, by decide, by decide, by decide, fun _ _ => rfl⟩,
    ⟨by decide, by decide, by decide, by decide, fun _ _ => rfl⟩⟩
  intro env outputDir outputFile sched url w video format hv hs
  constructor
  · intro hq
    unfold download
    simp only [hv, hs, hq, if_true]
  · intro hq
    unfold download
    simp only [hv, hs, hq, if_false]

/-- Witness of C10: the routing part at the list `[f137, f140, f18]` (selected
"hd1080": dual-track route) and at the list `[f18]` (selected "medium":
single-stream route). -/
theorem C10_no_fallback_below_selected_tier_witness :
    download (demoEnv [f137, f140, f18] none none) "out" "" [] "https://v" ⟨[], []⟩ =
        DownloadWithHighQuality (demoEnv [f137, f140, f18] none none) ⟨"out"⟩ [] Background ""
          (clip [f137, f140, f18]) "hd1080"
          ⟨[], [Event.getVideo "https://v", Event.ffmpegVersion]⟩ ∧
      download (demoEnv [f18] none none) "out" "" [] "https://v" ⟨[], []⟩ =
        Download (demoEnv [f18] none none) ⟨"out"⟩ Background (clip [f18]) f18 ""
          ⟨[], [Event.getVideo "https://v"]⟩ :=
  ⟨(C10_no_fallback_below_selected_tier.1 (demoEnv [f137, f140, f18] none none) "out" "" []
      "https://v" ⟨[], []⟩ (clip [f137, f140, f18]) f137 rfl (by decide)).1 (by decide),
    (C10_no_fallback_below_selected_tier.1 (demoEnv [f18] none none) "out" "" []
      "https://v" ⟨[], []⟩ (clip [f18]) f18 rfl (by decide)).2 (by decide)⟩



/-! ## No panic in the Selecting step -/

theorem Download_not_panicked (env : Env) (dl : Downloader) (ctx : Context) (v : Video)
    (format : Format) (outputFile : String) (w : World) (msg : String) :
    (Download env dl ctx v format outputFile w).1 ≠ Outcome.panicked msg := by
  unfold Download
  rcases getOutputFile env dl v format outputFile w with ⟨res, w1⟩
  cases res with
  | error e => simp
  | ok destFile =>
    dsimp only
    by_cases hd : destFile ∈ (w1.emit (Event.stat destFile)).files
    · rw [if_pos hd]; simp
    · rw [if_neg hd]
      cases env.Create destFile with
      | some err => simp
      | none =>
        dsimp only
        rcases videoDLWorker env ctx destFile v format
          (((w1.emit (Event.stat destFile)).emit (Event.create destFile)).addFile destFile)
          with ⟨r, w2⟩
        cases r <;> simp

theorem DownloadWithHighQuality_not_panicked (env : Env) (dl : Downloader) (sched : List Tid)
    (ctx : Context) (outputFile : String) (v : Video) (quality : String) (w : World)
    (msg : String) :
    (DownloadWithHighQuality env dl sched ctx outputFile v quality w).1 ≠ Outcome.panicked msg := by
  unfold DownloadWithHighQuality
  by_cases hq : quality = "hd1080"
  swap
  · rw [if_neg hq]; simp
  rw [if_pos hq]
  cases FindByItag v.Formats 137 with
  | none => simp
  | some videoFormat =>
  cases FindByItag v.Formats 140 with
  | none => simp
  | some audioFormat =>
  dsimp only
  rcases getOutputFile env dl v videoFormat outputFile w with ⟨res, w1⟩
  cases res with
  | error e => simp
  | ok destFile =>
  dsimp only
  by_cases hd : destFile ∈ (w1.emit (Event.stat destFile)).files
  · rw [if_pos hd]; simp
  rw [if_neg hd]
  rcases TempFile env (env.Dir destFile) "youtube_*.m4v" (w1.emit (Event.stat destFile))
    with ⟨r1, w3⟩
  cases r1 with
  | error e => simp
  | ok videoFile =>
  dsimp only
  rcases TempFile env (env.Dir destFile) "youtube_*.m4a" w3 with ⟨r2, w4⟩
  cases r2 with
  | error e => simp
  | ok audioFile =>
  dsimp only
  generalize runHQ env ⟨ctx, v, videoFormat, audioFormat, destFile, videoFile, audioFile⟩ sched
    ⟨w4, none, [], PC.start, PC.start, 0, none⟩ = s
  rcases s.ret with _ | ⟨path, err⟩ <;> simp

/-- C3: the Selecting step of `download` yields a format for every resolved
video, and it is one of the video's formats; `download` never runs into the
out-of-range indexing of `video.Formats[0]`, whatever the server answers: an
answer without any format is not a resolved video, it ends `download` with
the resolver's error before the selection. -/
theorem C3_selecting_yields_a_format :
    (∀ (env : Env) (url : String) (video : Video),
        GetVideo env url = Except.ok video →
        ∃ format, selectFormat priorities video.Formats = some format ∧
          format ∈ video.Formats) ∧
    (∀ (env : Env) (outputDir outputFile : String) (sched : List Tid) (url : String) (w : World)
        (msg : String),
        (download env outputDir outputFile sched url w).1 ≠ Outcome.panicked msg) := by
  constructor
  · intro env url video h
    exact selectFormat_total_on_nonempty priorities video.Formats (GetVideo_formats_ne_nil h)
  · intro env outputDir outputFile sched url w msg
    unfold download
    cases hg : GetVideo env url with
    | error err => simp
    | ok video =>
      obtain ⟨format, hf, _⟩ :=
        selectFormat_total_on_nonempty priorities video.Formats (GetVideo_formats_ne_nil hg)
      simp only [hf]
      by_cases hq : format.Quality = "hd1080"
      · simp only [hq, if_true]
        cases env.ffmpegVersionRun with
        | some err => simp
        | none => exact DownloadWithHighQuality_not_panicked _ _ _ _ _ _ _ _ _
      · simp only [hq, if_false]
        exact Download_not_panicked _ _ _ _ _ _ _ _

/-- Witness of C3: a video whose only format the loop rejects (the fallback
yields it), and a server answer without formats, on which `download` returns
the resolver's error. -/
theorem C3_selecting_yields_a_format_witness :
    (∃ format, selectFormat priorities (clip [f248]).Formats = some format ∧
        format ∈ (clip [f248]).Formats) ∧
      (download (demoEnv [] none none) "out" "" [] "https://v" ⟨[], []⟩).1
        ≠ Outcome.panicked "index out of range [0] with length 0" ∧
      (download (demoEnv [] none none) "out" "" [] "https://v" ⟨[], []⟩).1
        = Outcome.returned "" (some "no formats found in the server's answer") :=
  ⟨C3_selecting_yields_a_format.1 (demoEnv [f248] none none) "https://v" (clip [f248]) rfl,
    C3_selecting_yields_a_format.2 (demoEnv [] none none) "out" "" [] "https://v" ⟨[], []⟩
      "index out of range [0] with length 0",
    by decide⟩

/-! ## Claims on the concurrent part -/

/-- C7, the code at the failing input: the stream of the video track fails at
once, the video goroutine sends its error, and the calling goroutine,
scheduled next, returns that error having received one value only, while the
audio goroutine has not finished (it has not even opened its stream: there is
no stream of format 140 in the log). The comment above the loop says
"block for video & audio". -/
theorem C7_returns_after_one_signal :
    DownloadWithHighQuality (demoEnv [f137, f140] (some "unexpected EOF") none) ⟨"out"⟩
        [Tid.video, Tid.video, Tid.main] Background "" (clip [f137, f140]) "hd1080" ⟨[], []⟩
      = (Outcome.returned "" (some "unexpected EOF"),
          ⟨[],
            [Event.mkdirAll "out", Event.stat "out/clip.mp4",
              Event.tempFile "out" "youtube_*.m4v" (some "out/youtube_1.m4v"),
              Event.tempFile "out" "youtube_*.m4a" (some "out/youtube_2.m4a"),
              Event.getStream 137, Event.recv (some "unexpected EOF"),
              Event.remove "out/youtube_2.m4a", Event.remove "out/youtube_1.m4v"]⟩) ∧
      (recvs (DownloadWithHighQuality (demoEnv [f137, f140] (some "unexpected EOF") none)
        ⟨"out"⟩ [Tid.video, Tid.video, Tid.main] Background "" (clip [f137, f140]) "hd1080"
        ⟨[], []⟩).2.log).length = 1 := by
  decide

/-- C8, the code at the failing input: the temporary files are never closed,
and on a system that refuses to remove an open file both deferred `os.Remove`
calls fail, their errors are dropped, and the call returns the destination
with a nil error while both temporary files it created are still there. -/
theorem C8_temporaries_left_when_removal_fails :
    DownloadWithHighQuality (openFilesEnv [f137, f140]) ⟨"out"⟩ [] Background ""
        (clip [f137, f140]) "hd1080" ⟨[], []⟩
      = (Outcome.returned "out/clip.mp4" none,
          ⟨["out/clip.mp4", "out/youtube_2.m4a", "out/youtube_1.m4v"],
            [Event.mkdirAll "out", Event.stat "out/clip.mp4",
              Event.tempFile "out" "youtube_*.m4v" (some "out/youtube_1.m4v"),
              Event.tempFile "out" "youtube_*.m4a" (some "out/youtube_2.m4a"),
              Event.getStream 137, Event.copy 137 "out/youtube_1.m4v",
              Event.getStream 140, Event.copy 140 "out/youtube_2.m4a",
              Event.recv none, Event.recv none,
              Event.ffmpegMerge "out/youtube_1.m4v" "out/youtube_2.m4a" "out/clip.mp4",
              Event.remove "out/youtube_2.m4a", Event.remove "out/youtube_1.m4v"]⟩) ∧
      tempsCreated (DownloadWithHighQuality (openFilesEnv [f137, f140]) ⟨"out"⟩ []
        Background "" (clip [f137, f140]) "hd1080" ⟨[], []⟩).2.log
        = ["out/youtube_1.m4v", "out/youtube_2.m4a"] ∧
      "out/youtube_1.m4v" ∈ (DownloadWithHighQuality (openFilesEnv [f137, f140]) ⟨"out"⟩ []
        Background "" (clip [f137, f140]) "hd1080" ⟨[], []⟩).2.files ∧
      "out/youtube_2.m4a" ∈ (DownloadWithHighQuality (openFilesEnv [f137, f140]) ⟨"out"⟩ []
        Background "" (clip [f137, f140]) "hd1080" ⟨[], []⟩).2.files := by
  decide

/-- When the server answers the request for the video stream with an empty
body, the video worker never returns from `progress.Wait()`, its goroutine
never sends, and the calling goroutine, having received the nil of the audio
track, waits on `finished` forever: the call does not return, no deferred
removal runs and both temporary files stay. -/
theorem DownloadWithHighQuality_blocks_on_empty_body :
    DownloadWithHighQuality (emptyBodyEnv [f137, f140]) ⟨"out"⟩ [] Background ""
        (clip [f137, f140]) "hd1080" ⟨[], []⟩
      = (Outcome.blocked,
          ⟨["out/youtube_2.m4a", "out/youtube_1.m4v"],
            [Event.mkdirAll "out", Event.stat "out/clip.mp4",
              Event.tempFile "out" "youtube_*.m4v" (some "out/youtube_1.m4v"),
              Event.tempFile "out" "youtube_*.m4a" (some "out/youtube_2.m4a"),
              Event.getStream 137, Event.copy 137 "out/youtube_1.m4v",
              Event.getStream 140, Event.copy 140 "out/youtube_2.m4a",
              Event.recv none]⟩) := by
  decide

end YoutubeDl
